import Mathlib

/-!
Shallow embedding of the window coordination subsystem of azul3d/gfx
(package `window`: glfwwindow.go, glfwinit.go, and the Window/Run API file).

Machine integers (`int`) are embedded as `Int`; `float64` coordinates are
embedded as `ℚ` (the code only compares them for equality, subtracts them,
and uses the sentinel `math.Inf(-1)`, modelled by a dedicated constructor).
Native GLFW calls are reified as a trace (`List NativeCall`) so that
"issues exactly one native mutation call" is a statement about the trace.
-/

namespace Gfx

/-- Embeds the `Props` record (the property set). The `props.go` file is not
in the sources; the field list is taken from the getters/setters the window
code uses (`Title`, `Size`, `Pos`, `CursorPos`, `Visible`, `Minimized`,
`Focused`, `VSync`, `CursorGrabbed`, `Resizable`, `Decorated`,
`AlwaysOnTop`, `Fullscreen`, `FramebufferSize`, `ShouldClose`). -/
structure Props where
  title : String
  width : Int
  height : Int
  x : Int
  y : Int
  cursorX : ℚ
  cursorY : ℚ
  visible : Bool
  minimized : Bool
  focused : Bool
  vsync : Bool
  cursorGrabbed : Bool
  resizable : Bool
  decorated : Bool
  alwaysOnTop : Bool
  fullscreen : Bool
  fbWidth : Int
  fbHeight : Int
  shouldClose : Bool
  deriving DecidableEq, Repr

attribute [ext] Props

/-- Modelled from the spec: `NewProps` (its source file `props.go` is not
under the given sources). Only the existence of a freshly constructed
default property set matters for the claims; the defaults are the spec's
"defaults applied if absent". -/
def NewProps : Props :=
  { title := "Azul3D", width := 800, height := 450, x := -1, y := -1
    cursorX := -1, cursorY := -1, visible := true, minimized := false
    focused := true, vsync := true, cursorGrabbed := false
    resizable := true, decorated := true, alwaysOnTop := false
    fullscreen := false, fbWidth := 800, fbHeight := 450
    shouldClose := true }

/-- A `float64` cursor coordinate as stored in `glfwWindow.lastCursorX/Y`:
either the sentinel `math.Inf(-1)` or a finite value. -/
inductive Coord where
  | negInf : Coord
  | val : ℚ → Coord
  deriving DecidableEq, Repr

/-- The finite value of a coordinate; the sentinel case never feeds the
subtraction in the source (the callback returns before subtracting when the
sentinel is present), so it is given a junk value here. -/
def Coord.toQ : Coord → ℚ
  | .negInf => 0
  | .val q => q

/-- One native GLFW mutation call, as issued by the reconciler
(`useProps`), `updateTitle` or the run loop. -/
inductive NativeCall where
  | setTitle (s : String)
  | setSize (w h : Int)
  | setPosition (x y : Int)
  | setCursorPosition (x y : ℚ)
  | show
  | hide
  | iconify
  | restore
  | swapInterval (i : Int)
  | setInputMode (cursorDisabled : Bool)
  deriving DecidableEq, Repr

/-- Embeds `glfwWindow`'s fields relevant to the claims: the requested
(`props`) and last-applied (`last`) property sets, the raw-sample delta
baseline `lastCursorX/Y`, the two adaptive-vsync extension flags and the
subscription list is modelled separately (`EventSys`). -/
structure WinState where
  props : Props
  last : Props
  lastCursorX : Coord
  lastCursorY : Coord
  extWGLEXTSwapControlTear : Bool
  extGLXEXTSwapControlTear : Bool
  deriving DecidableEq, Repr

/-! ### Title reconciliation (`updateTitle`) -/

/-- Embeds `strings.Replace(s, old, new, 1)` for a nonempty `old` (the code
only calls it with `old = "{FPS}"`): replace the first occurrence of `old`
in `s`, working on character lists. -/
def replaceOnceL (old new : List Char) : List Char → List Char
  | [] => []
  | c :: rest =>
    if (c :: rest).take old.length = old then
      new ++ (c :: rest).drop old.length
    else
      c :: replaceOnceL old new rest

/-- String version of `replaceOnceL`. -/
def replaceOnce (s old new : String) : String :=
  ⟨replaceOnceL old.data new.data s.data⟩

/-- Embeds `int(math.Ceil(x))` for the (nonnegative) measured frame rate. -/
def goCeil (q : ℚ) : Int := -((-q).floor)

/-- Embeds `updateTitle`: format `"%dFPS"` from the ceiling of the frame
rate, substitute it for the first `"{FPS}"` in the requested title, and set
the window title. Returns the applied title (the argument of the
`SetTitle` native call). -/
def updateTitle (title : String) (frameRate : ℚ) : String :=
  replaceOnce title "{FPS}" (toString (goCeil frameRate) ++ "FPS")

/-! ### The property reconciler (`useProps`)

`useProps` is embedded one source block per definition, in source order;
each block takes the requested props `p` and the current `last` and returns
the updated `last` together with the native calls it issues. -/

/-- Embeds the "Window Size" block of `useProps`. -/
def reconcileSize (p last : Props) (force : Bool) : Props × List NativeCall :=
  if force = true ∨ p.width ≠ last.width ∨ p.height ≠ last.height then
    ({ last with width := p.width, height := p.height },
     [.setSize p.width p.height])
  else (last, [])

/-- The position the "Window Position" block of `useProps` passes to
`SetPosition`: the centered position resolved from the primary monitor's
video mode when the request is the `(-1,-1)` sentinel and `GetVideoMode`
succeeded (`vm = some (vmWidth, vmHeight)`); the requested position
otherwise. Go's `/` on `int` is truncated division (`Int.tdiv`);
`p.width`/`p.height` are the requested size, captured earlier in
`useProps`. -/
def resolvedPos (vm : Option (Int × Int)) (p : Props) : Int × Int :=
  if p.x = -1 ∧ p.y = -1 then
    match vm with
    | some (vmW, vmH) =>
      (vmW.tdiv 2 - p.width.tdiv 2, vmH.tdiv 2 - p.height.tdiv 2)
    | none => (p.x, p.y)
  else (p.x, p.y)

/-- Embeds the "Window Position" block of `useProps`: `last` receives the
requested coordinates (the sentinel included), while the native call uses
`resolvedPos`. -/
def reconcilePos (vm : Option (Int × Int)) (p last : Props) (force : Bool) :
    Props × List NativeCall :=
  if force = true ∨ p.x ≠ last.x ∨ p.y ≠ last.y then
    ({ last with x := p.x, y := p.y },
     [.setPosition (resolvedPos vm p).1 (resolvedPos vm p).2])
  else (last, [])

/-- Embeds the "Cursor Position" block of `useProps`: `last` always
receives the requested value when it changed, but the native call is only
issued when neither coordinate is the `-1` sentinel. -/
def reconcileCursorPos (p last : Props) (force : Bool) :
    Props × List NativeCall :=
  if force = true ∨ p.cursorX ≠ last.cursorX ∨ p.cursorY ≠ last.cursorY then
    ({ last with cursorX := p.cursorX, cursorY := p.cursorY },
     if p.cursorX ≠ -1 ∧ p.cursorY ≠ -1 then
       [.setCursorPosition p.cursorX p.cursorY]
     else [])
  else (last, [])

/-- Embeds the "Window Visibility" block of `useProps`. -/
def reconcileVisible (p last : Props) (force : Bool) :
    Props × List NativeCall :=
  if force = true ∨ last.visible ≠ p.visible then
    ({ last with visible := p.visible },
     [if p.visible then .show else .hide])
  else (last, [])

/-- Embeds the "Window Minimized" block of `useProps`. -/
def reconcileMinimized (p last : Props) (force : Bool) :
    Props × List NativeCall :=
  if force = true ∨ last.minimized ≠ p.minimized then
    ({ last with minimized := p.minimized },
     [if p.minimized then .iconify else .restore])
  else (last, [])

/-- Embeds the "Vertical sync mode" block of `useProps`: the swap interval
is recomputed from the current extension flags on every change — `-1`
(adaptive) when vsync is on and either `WGL_EXT_swap_control_tear` or
`GLX_EXT_swap_control_tear` is advertised, `1` (standard) when vsync is on
without them, `0` (immediate, the Go zero value of `swapInterval`)
otherwise. -/
def reconcileVSync (p last : Props) (force : Bool) (extWGL extGLX : Bool) :
    Props × List NativeCall :=
  if force = true ∨ last.vsync ≠ p.vsync then
    ({ last with vsync := p.vsync },
     [.swapInterval
       (if p.vsync then (if extWGL ∨ extGLX then -1 else 1) else 0)])
  else (last, [])

/-- Embeds the "Cursor Mode" block of `useProps`: on any grab change the
delta baseline `lastCursorX/Y` is reset to the `math.Inf(-1)` sentinel and
the input mode is set. Returns the new `last`, the new baseline pair and
the native calls. -/
def reconcileGrab (p last : Props) (force : Bool) (cx cy : Coord) :
    Props × (Coord × Coord) × List NativeCall :=
  if force = true ∨ last.cursorGrabbed ≠ p.cursorGrabbed then
    ({ last with cursorGrabbed := p.cursorGrabbed },
     (.negInf, .negInf),
     [.setInputMode p.cursorGrabbed])
  else (last, (cx, cy), [])

/-- Embeds `useProps(p, force)`: store the requested props, update the
title unconditionally, then reconcile each field block in source order,
collecting the native calls in issue order. `vm` is the primary monitor's
video mode (`none` when `GetVideoMode` errors) and `frameRate` the
renderer clock's measured rate used by `updateTitle`. -/
def useProps (vm : Option (Int × Int)) (frameRate : ℚ) (w : WinState)
    (p : Props) (force : Bool) : WinState × List NativeCall :=
  let titleCall := NativeCall.setTitle (updateTitle p.title frameRate)
  let r1 := reconcileSize p w.last force
  let r2 := reconcilePos vm p r1.1 force
  let r3 := reconcileCursorPos p r2.1 force
  let r4 := reconcileVisible p r3.1 force
  let r5 := reconcileMinimized p r4.1 force
  let r6 := reconcileVSync p r5.1 force
    w.extWGLEXTSwapControlTear w.extGLXEXTSwapControlTear
  let r7 := reconcileGrab p r6.1 force w.lastCursorX w.lastCursorY
  ({ w with props := p, last := r7.1,
            lastCursorX := r7.2.1.1, lastCursorY := r7.2.1.2 },
   titleCall :: (r1.2 ++ r2.2 ++ r3.2 ++ r4.2 ++ r5.2 ++ r6.2 ++ r7.2.2))

/-! ### Notification registry (`Notify`, `findNotifier`, `deleteNotifiers`,
`sendEvent`)

A subscriber channel is identified by a numeric identity (Go compares
`chan<- Event` values by identity); an `EventMask` is a `uint32`, embedded
as `Nat` with bitwise-and, and events are identified by a numeric id. -/

/-- Embeds the `notifier` struct: an event mask paired with the subscriber
channel's identity. -/
structure Notifier where
  mask : Nat
  ch : Nat
  deriving DecidableEq, Repr

/-- Embeds `findNotifier`: index of the first notifier whose channel is
`ch` (`-1`, here `none`, when absent). -/
def findNotifier (ns : List Notifier) (ch : Nat) : Option Nat :=
  ns.findIdx? (fun nf => nf.ch == ch)

/-- Embeds the loop of `deleteNotifiers` together with Go's slice
aliasing: `s := w.notifiers` shares the backing array `arr` with
`w.notifiers`, so `s = append(s[:idx], s[idx+1:]...)` shifts the elements
`arr[idx+1..sLen)` down one slot in place (positions `sLen-1..` keep their
old values) and shortens only `s` (to `sLen - 1`), while
`w.notifiers` — which `findNotifier` searches — keeps the original length
(`arr` itself, by the invariant `arr.length` is constant and
`sLen ≤ arr.length`). `s[idx+1:]` is Go's `s[idx+1:sLen]`, which panics
(`none`) when `idx + 1 > sLen` — in particular always when `sLen = 0`.
The recursion is structural on `sLen`, which the loop decrements by one
per removal. -/
def deleteLoop (ch : Nat) : Nat → List Notifier → Option (List Notifier)
  | sLen, arr =>
    match findNotifier arr ch with
    | none => some (arr.take sLen)
    | some idx =>
      match sLen with
      | 0 => none
      | sl + 1 =>
        if idx + 1 ≤ sl + 1 then
          deleteLoop ch sl
            (arr.take idx ++ (arr.drop (idx + 1)).take (sl + 1 - idx - 1)
              ++ arr.drop sl)
        else none

/-- Embeds `deleteNotifiers(ch)`: run the loop on the current notifier
list; `none` is a Go runtime panic (slice bounds out of range), otherwise
the resulting `w.notifiers` value. -/
def deleteNotifiers (ns : List Notifier) (ch : Nat) : Option (List Notifier) :=
  deleteLoop ch ns.length ns

/-- `NoEvents` mask. -/
def NoEvents : Nat := 0

/-- Embeds `Notify(ch, m)`: the `NoEvents` mask deletes the channel's
notifiers, any other mask appends a subscription. -/
def notify (ns : List Notifier) (ch : Nat) (m : Nat) : Option (List Notifier) :=
  if m = NoEvents then deleteNotifiers ns ch
  else some (ns ++ [⟨m, ch⟩])

/-- A subscriber channel: buffered contents (event ids, oldest first) and
capacity. -/
structure Queue where
  buf : List Nat
  cap : Nat
  deriving DecidableEq, Repr

/-- The notification system state: the subscription list and each
channel's queue. -/
structure EventSys where
  notifiers : List Notifier
  queues : Nat → Queue

/-- Embeds Go's `select { case nf.ch <- ev: default: }`: enqueue if there
is buffer space, otherwise drop the event without blocking. -/
def trySend (q : Queue) (ev : Nat) : Queue :=
  if q.buf.length < q.cap then { q with buf := q.buf ++ [ev] } else q

/-- Embeds `sendEvent(ev, m)`: walk the notifier list in order and
non-blockingly offer the event to every subscriber whose mask intersects
`m`; the notifier list itself is only read. -/
def sendEvent (s : EventSys) (ev : Nat) (m : Nat) : EventSys :=
  { notifiers := s.notifiers
    queues := s.notifiers.foldl
      (fun qs nf => fun c =>
        if nf.mask &&& m ≠ 0 ∧ c = nf.ch then trySend (qs c) ev else qs c)
      s.queues }

/-! ### Cursor-position callback (`SetCursorPositionCallback`) -/

/-- The payload of a `CursorMoved` event: either an absolute position or,
when the cursor is grabbed, a delta (`Delta = true`). -/
structure CursorMoved where
  x : ℚ
  y : ℚ
  delta : Bool
  deriving DecidableEq, Repr

/-- Embeds the cursor-position callback: when grabbed, swap the raw sample
into `lastCursorX/Y` and suppress the event if the previous sample was the
`math.Inf(-1)` sentinel, otherwise emit the delta; when not grabbed,
record the absolute position in both property sets and emit it. -/
def cursorPosCallback (w : WinState) (x y : ℚ) :
    WinState × Option CursorMoved :=
  if w.props.cursorGrabbed then
    let lastX := w.lastCursorX
    let lastY := w.lastCursorY
    let w' := { w with lastCursorX := .val x, lastCursorY := .val y }
    if lastX = .negInf ∧ lastY = .negInf then (w', none)
    else (w', some ⟨x - lastX.toQ, y - lastY.toQ, true⟩)
  else
    ({ w with props := { w.props with cursorX := x, cursorY := y }
              last := { w.last with cursorX := x, cursorY := y } },
     some ⟨x, y, false⟩)

/-! ### Initialization / teardown (`doInit`, `doExit` in glfwinit.go)

The native calls either succeed or return an error; an `InitEnv` fixes the
outcome of each fallible native operation so `doInit`/`doExit` become pure
functions of the environment and the `glfwInit` flag. The performed native
steps are traced. -/

/-- Outcomes of the fallible native operations used by `doInit`/`doExit`
(`none` = success, `some e` = the error returned). -/
structure InitEnv where
  glfwInitErr : Option String
  windowHintErr : Option String
  createWindowErr : Option String
  newDeviceErr : Option String
  assetExitErr : Option String
  terminateErr : Option String
  deriving DecidableEq, Repr

/-- The native/goroutine steps `doInit` and `doExit` may perform. -/
inductive InitStep where
  | glfwInitCall
  | windowHint
  | createWindow
  | makeContextCurrent
  | newDevice
  | detachContext
  | spawnAssetLoader
  | spawnPoller
  | assetExitHandshake
  | pollerExitSignal
  | terminate
  deriving DecidableEq, Repr

/-- Result of `doInit`/`doExit`: the new `glfwInit` flag, the returned
error, and the trace of performed steps. -/
structure InitResult where
  flag : Bool
  err : Option String
  steps : List InitStep
  deriving DecidableEq, Repr

/-- Embeds `doInit()`: returns nil immediately when already initialized;
otherwise initializes GLFW, creates the hidden asset window and device,
spawns the asset-loader and event-poller goroutines and sets the flag —
returning early (flag left clear) on the first error. -/
def doInit (env : InitEnv) (glfwInit : Bool) : InitResult :=
  if glfwInit then ⟨glfwInit, none, []⟩
  else
    match env.glfwInitErr with
    | some e => ⟨false, some e, [.glfwInitCall]⟩
    | none =>
      match env.windowHintErr with
      | some e => ⟨false, some e, [.glfwInitCall, .windowHint]⟩
      | none =>
        match env.createWindowErr with
        | some e => ⟨false, some e, [.glfwInitCall, .windowHint, .createWindow]⟩
        | none =>
          match env.newDeviceErr with
          | some e =>
            ⟨false, some e,
             [.glfwInitCall, .windowHint, .createWindow,
              .makeContextCurrent, .newDevice]⟩
          | none =>
            ⟨true, none,
             [.glfwInitCall, .windowHint, .createWindow,
              .makeContextCurrent, .newDevice, .detachContext,
              .spawnAssetLoader, .spawnPoller]⟩

/-- Embeds `doExit()`: returns nil immediately when not initialized;
otherwise signals the asset loader (returning its error with the flag
still set if the handshake fails), stops the poller, terminates GLFW and
clears the flag (the flag is cleared even when `Terminate` errors). -/
def doExit (env : InitEnv) (glfwInit : Bool) : InitResult :=
  if ¬glfwInit then ⟨glfwInit, none, []⟩
  else
    match env.assetExitErr with
    | some e => ⟨true, some e, [.assetExitHandshake]⟩
    | none =>
      ⟨false, env.terminateErr,
       [.assetExitHandshake, .pollerExitSignal, .terminate]⟩

/-! ### The `Run` entry point -/

/-- Outcome of `Run`: either the nil-loop panic, or `doRun` invoked with
the (defaulted) property set — all native initialization and window
creation happen inside `doRun`, so a `panicked` outcome performs none of
it. -/
inductive RunOutcome where
  | panicked (msg : String)
  | ran (p : Props)
  deriving DecidableEq, Repr

/-- Embeds `Run(gfxLoop, p)`: a nil `p` is replaced by `NewProps()`, then
a nil `gfxLoop` panics before `doRun` is reached. -/
def Run (gfxLoopIsNil : Bool) (p : Option Props) : RunOutcome :=
  let p' := match p with
    | none => NewProps
    | some q => q
  if gfxLoopIsNil then .panicked "window: nil graphics loop function!"
  else .ran p'

/-! ### Lock discipline over the (`props`, `last`) pair

Each source site that touches the property-set pair under
`glfwWindow.RWMutex` is recorded with the lock kind it acquires and
whether it mutates the pair. -/

/-- Which side of the `sync.RWMutex` a source site acquires. -/
inductive LockKind where
  | read
  | write
  deriving DecidableEq, Repr

/-- A source site accessing the (`props`, `last`) pair: the lock it holds
and whether it mutates either member of the pair. -/
structure PropsAccess where
  site : String
  lock : LockKind
  writesPair : Bool
  deriving DecidableEq, Repr

/-- The sites in glfwwindow.go that access the (`props`, `last`) pair
under the window's lock: `Props()` (RLock, read-only), `useProps` (Lock,
mutates both), and the callbacks of `initCallbacks` that update the shadow
state (all take `RLock` while calling the pair's setters). -/
def propsPairAccesses : List PropsAccess :=
  [⟨"Props", .read, false⟩,
   ⟨"useProps", .write, true⟩,
   ⟨"iconifyCallback", .read, true⟩,
   ⟨"focusCallback", .read, true⟩,
   ⟨"positionCallback", .read, true⟩,
   ⟨"sizeCallback", .read, true⟩,
   ⟨"framebufferSizeCallback", .read, true⟩,
   ⟨"cursorPosCallback", .read, true⟩]

/-! ### Derived views of the native-call trace -/

/-- The swap-interval argument of a native call, when it is one. -/
def swapOf : NativeCall → Option Int
  | .swapInterval i => some i
  | _ => none

/-- The arguments of the `SwapInterval` calls in a trace. -/
def swapCalls (calls : List NativeCall) : List Int :=
  calls.filterMap swapOf

/-- Embeds the `case <-updateFPS` branch of `doRun`'s main loop: on every
periodic tick, `updateTitle` is re-run under the write lock — one
`SetTitle` native call per tick, independent of any property diff. -/
def runLoopTick (w : WinState) (frameRate : ℚ) : List NativeCall :=
  [.setTitle (updateTitle w.props.title frameRate)]

/-! ### Characterization of each reconciler block

For each block: the resulting `last` is the input with the block's own
fields overwritten by the requested values (in both branches: when the
block is skipped the fields were already equal), and the call trace is
empty exactly when the block is skipped. -/

theorem reconcileSize_state (p l : Props) (f : Bool) :
    (reconcileSize p l f).1 = { l with width := p.width, height := p.height } := by
  unfold reconcileSize
  split_ifs with h
  · rfl
  · push_neg at h
    obtain ⟨-, hw, hh⟩ := h
    cases l
    simp_all

theorem reconcileSize_calls (p l : Props) (f : Bool) :
    (reconcileSize p l f).2 =
      if f = true ∨ p.width ≠ l.width ∨ p.height ≠ l.height then
        [.setSize p.width p.height]
      else [] := by
  unfold reconcileSize
  split_ifs <;> rfl

theorem reconcilePos_state (vm : Option (Int × Int)) (p l : Props) (f : Bool) :
    (reconcilePos vm p l f).1 = { l with x := p.x, y := p.y } := by
  unfold reconcilePos
  split_ifs with h
  · rfl
  · push_neg at h
    obtain ⟨-, hx, hy⟩ := h
    cases l
    simp_all

theorem reconcilePos_calls (vm : Option (Int × Int)) (p l : Props) (f : Bool) :
    (reconcilePos vm p l f).2 =
      if f = true ∨ p.x ≠ l.x ∨ p.y ≠ l.y then
        [.setPosition (resolvedPos vm p).1 (resolvedPos vm p).2]
      else [] := by
  unfold reconcilePos
  split_ifs <;> rfl

theorem reconcileCursorPos_state (p l : Props) (f : Bool) :
    (reconcileCursorPos p l f).1 =
      { l with cursorX := p.cursorX, cursorY := p.cursorY } := by
  by_cases h : f = true ∨ p.cursorX ≠ l.cursorX ∨ p.cursorY ≠ l.cursorY
  · simp only [reconcileCursorPos, if_pos h]
  · simp only [reconcileCursorPos, if_neg h]
    push_neg at h
    obtain ⟨-, hx, hy⟩ := h
    cases l
    simp_all

theorem reconcileCursorPos_calls (p l : Props) (f : Bool) :
    (reconcileCursorPos p l f).2 =
      if f = true ∨ p.cursorX ≠ l.cursorX ∨ p.cursorY ≠ l.cursorY then
        (if p.cursorX ≠ -1 ∧ p.cursorY ≠ -1 then
          [.setCursorPosition p.cursorX p.cursorY]
        else [])
      else [] := by
  unfold reconcileCursorPos
  split_ifs <;> rfl

theorem reconcileVisible_state (p l : Props) (f : Bool) :
    (reconcileVisible p l f).1 = { l with visible := p.visible } := by
  by_cases h : f = true ∨ l.visible ≠ p.visible
  · simp only [reconcileVisible, if_pos h]
  · simp only [reconcileVisible, if_neg h]
    push_neg at h
    obtain ⟨-, hv⟩ := h
    cases l
    simp_all

theorem reconcileVisible_calls (p l : Props) (f : Bool) :
    (reconcileVisible p l f).2 =
      if f = true ∨ l.visible ≠ p.visible then
        [if p.visible then .show else .hide]
      else [] := by
  unfold reconcileVisible
  split_ifs <;> rfl

theorem reconcileMinimized_state (p l : Props) (f : Bool) :
    (reconcileMinimized p l f).1 = { l with minimized := p.minimized } := by
  by_cases h : f = true ∨ l.minimized ≠ p.minimized
  · simp only [reconcileMinimized, if_pos h]
  · simp only [reconcileMinimized, if_neg h]
    push_neg at h
    obtain ⟨-, hm⟩ := h
    cases l
    simp_all

theorem reconcileMinimized_calls (p l : Props) (f : Bool) :
    (reconcileMinimized p l f).2 =
      if f = true ∨ l.minimized ≠ p.minimized then
        [if p.minimized then .iconify else .restore]
      else [] := by
  unfold reconcileMinimized
  split_ifs <;> rfl

theorem reconcileVSync_state (p l : Props) (f : Bool) (ew eg : Bool) :
    (reconcileVSync p l f ew eg).1 = { l with vsync := p.vsync } := by
  by_cases h : f = true ∨ l.vsync ≠ p.vsync
  · simp only [reconcileVSync, if_pos h]
  · simp only [reconcileVSync, if_neg h]
    push_neg at h
    obtain ⟨-, hv⟩ := h
    cases l
    simp_all

theorem reconcileVSync_calls (p l : Props) (f : Bool) (ew eg : Bool) :
    (reconcileVSync p l f ew eg).2 =
      if f = true ∨ l.vsync ≠ p.vsync then
        [.swapInterval (if p.vsync then (if ew ∨ eg then -1 else 1) else 0)]
      else [] := by
  unfold reconcileVSync
  split_ifs <;> rfl

theorem reconcileGrab_state (p l : Props) (f : Bool) (cx cy : Coord) :
    (reconcileGrab p l f cx cy).1 = { l with cursorGrabbed := p.cursorGrabbed } := by
  unfold reconcileGrab
  split_ifs with h
  · rfl
  · push_neg at h
    obtain ⟨-, hg⟩ := h
    cases l
    simp_all

theorem reconcileGrab_calls (p l : Props) (f : Bool) (cx cy : Coord) :
    (reconcileGrab p l f cx cy).2.2 =
      if f = true ∨ l.cursorGrabbed ≠ p.cursorGrabbed then
        [.setInputMode p.cursorGrabbed]
      else [] := by
  unfold reconcileGrab
  split_ifs <;> rfl

theorem reconcileGrab_baseline (p l : Props) (f : Bool) (cx cy : Coord) :
    (reconcileGrab p l f cx cy).2.1 =
      if f = true ∨ l.cursorGrabbed ≠ p.cursorGrabbed then
        (Coord.negInf, Coord.negInf)
      else (cx, cy) := by
  unfold reconcileGrab
  split_ifs <;> rfl

/-- After `useProps`, `last` equals the requested property set on every
reconciled field (size, position, cursor position, visibility, minimized,
vsync, cursor grab) and is untouched elsewhere — in particular the title
and the not-reconcilable-post-creation flags are never copied into
`last`. -/
theorem useProps_last (vm : Option (Int × Int)) (rate : ℚ) (w : WinState)
    (p : Props) (force : Bool) :
    (useProps vm rate w p force).1.last =
      { w.last with
          width := p.width, height := p.height, x := p.x, y := p.y,
          cursorX := p.cursorX, cursorY := p.cursorY,
          visible := p.visible, minimized := p.minimized,
          vsync := p.vsync, cursorGrabbed := p.cursorGrabbed } := by
  ext <;>
    simp [useProps, reconcileGrab_state, reconcileVSync_state,
      reconcileMinimized_state, reconcileVisible_state,
      reconcileCursorPos_state, reconcilePos_state, reconcileSize_state]

/-- The exact native-call trace of one `useProps` run: the unconditional
title update followed by, in source order, one call per field block whose
condition fires — each block's condition compares the requested value with
the `last` value as it was before the run (earlier blocks do not touch the
fields later blocks test). -/
theorem useProps_calls (vm : Option (Int × Int)) (rate : ℚ) (w : WinState)
    (p : Props) (force : Bool) :
    (useProps vm rate w p force).2 =
      NativeCall.setTitle (updateTitle p.title rate) ::
      ((if force = true ∨ p.width ≠ w.last.width ∨ p.height ≠ w.last.height then
          [.setSize p.width p.height] else [])
       ++ (if force = true ∨ p.x ≠ w.last.x ∨ p.y ≠ w.last.y then
            [.setPosition (resolvedPos vm p).1 (resolvedPos vm p).2] else [])
       ++ (if force = true ∨ p.cursorX ≠ w.last.cursorX ∨ p.cursorY ≠ w.last.cursorY then
            (if p.cursorX ≠ -1 ∧ p.cursorY ≠ -1 then
              [.setCursorPosition p.cursorX p.cursorY] else [])
           else [])
       ++ (if force = true ∨ w.last.visible ≠ p.visible then
            [if p.visible then .show else .hide] else [])
       ++ (if force = true ∨ w.last.minimized ≠ p.minimized then
            [if p.minimized then .iconify else .restore] else [])
       ++ (if force = true ∨ w.last.vsync ≠ p.vsync then
            [.swapInterval
              (if p.vsync then
                (if w.extWGLEXTSwapControlTear ∨ w.extGLXEXTSwapControlTear then -1
                 else 1)
               else 0)]
           else [])
       ++ (if force = true ∨ w.last.cursorGrabbed ≠ p.cursorGrabbed then
            [.setInputMode p.cursorGrabbed] else [])) := by
  simp only [useProps, reconcileSize_calls, reconcilePos_calls,
    reconcileCursorPos_calls, reconcileVisible_calls, reconcileMinimized_calls,
    reconcileVSync_calls, reconcileGrab_calls, reconcileSize_state,
    reconcilePos_state, reconcileCursorPos_state, reconcileVisible_state,
    reconcileMinimized_state, reconcileVSync_state]

/-- The requested property set is stored unconditionally by `useProps`. -/
theorem useProps_props (vm : Option (Int × Int)) (rate : ℚ) (w : WinState)
    (p : Props) (force : Bool) :
    (useProps vm rate w p force).1.props = p := rfl

/-- The delta baseline after `useProps`: reset to the sentinel exactly when
the cursor-grab block fired. -/
theorem useProps_lastCursorX (vm : Option (Int × Int)) (rate : ℚ)
    (w : WinState) (p : Props) (force : Bool) :
    (useProps vm rate w p force).1.lastCursorX =
      if force = true ∨ w.last.cursorGrabbed ≠ p.cursorGrabbed then Coord.negInf
      else w.lastCursorX := by
  simp [useProps, reconcileGrab_baseline, reconcileVSync_state,
    reconcileMinimized_state, reconcileVisible_state, reconcileCursorPos_state,
    reconcilePos_state, reconcileSize_state, apply_ite Prod.fst]

/-- As `useProps_lastCursorX`, for the `y` baseline. -/
theorem useProps_lastCursorY (vm : Option (Int × Int)) (rate : ℚ)
    (w : WinState) (p : Props) (force : Bool) :
    (useProps vm rate w p force).1.lastCursorY =
      if force = true ∨ w.last.cursorGrabbed ≠ p.cursorGrabbed then Coord.negInf
      else w.lastCursorY := by
  simp [useProps, reconcileGrab_baseline, reconcileVSync_state,
    reconcileMinimized_state, reconcileVisible_state, reconcileCursorPos_state,
    reconcilePos_state, reconcileSize_state, apply_ite Prod.snd]

/-- The cursor callback in grab mode: swap the raw sample into the
baseline and either suppress (fresh sentinel baseline) or emit the delta
against the previous sample. -/
theorem cursorPosCallback_grabbed (w : WinState) (x y : ℚ)
    (hg : w.props.cursorGrabbed = true) :
    cursorPosCallback w x y =
      ({ w with lastCursorX := .val x, lastCursorY := .val y },
       if w.lastCursorX = Coord.negInf ∧ w.lastCursorY = Coord.negInf then none
       else some ⟨x - w.lastCursorX.toQ, y - w.lastCursorY.toQ, true⟩) := by
  unfold cursorPosCallback
  rw [if_pos hg]
  dsimp only
  split_ifs <;> rfl

/-! ### The claims -/

/-- C5: when the requested position is the centered sentinel `(-1,-1)` and
the position block fires, the applied native position is computed from the
primary monitor's video mode and the requested size as
`((vmWidth/2)-(width/2), (vmHeight/2)-(height/2))`; with video mode
1920×1080 and size 800×600 the applied position is `(560, 240)`. -/
theorem c5_centered_sentinel :
    (∀ (vmW vmH : Int) (p l : Props) (force : Bool),
      p.x = -1 → p.y = -1 →
      (force = true ∨ p.x ≠ l.x ∨ p.y ≠ l.y) →
      (reconcilePos (some (vmW, vmH)) p l force).2 =
        [.setPosition (vmW.tdiv 2 - p.width.tdiv 2)
          (vmH.tdiv 2 - p.height.tdiv 2)]) ∧
    (reconcilePos (some (1920, 1080))
        { NewProps with width := 800, height := 600 } NewProps true).2 =
      [.setPosition 560 240] := by
  constructor
  · intro vmW vmH p l force hx hy hcond
    rw [reconcilePos_calls, if_pos hcond]
    simp [resolvedPos, hx, hy]
  · decide

/-- C5 witness: the general statement applied at the concrete input of the
claim (video mode 1920×1080, requested size 800×600, sentinel position). -/
theorem c5_centered_sentinel_witness :
    (reconcilePos (some (1920, 1080))
        { NewProps with width := 800, height := 600 } NewProps true).2 =
      [.setPosition ((1920 : Int).tdiv 2 - (800 : Int).tdiv 2)
        ((1080 : Int).tdiv 2 - (600 : Int).tdiv 2)] :=
  c5_centered_sentinel.1 1920 1080
    { NewProps with width := 800, height := 600 } NewProps true rfl rfl
    (Or.inl rfl)

/-- C6: the literal `{FPS}` in the requested title is replaced by the
ceiling of the measured frame rate followed by `FPS` (template
`"Game {FPS}"` with rate 42 — and with rate 41.5, whose ceiling is
also 42 — yields `"Game 42FPS"`), and the periodic run-loop tick re-issues
exactly this one `SetTitle` call regardless of the window state. -/
theorem c6_title_substitution :
    updateTitle "Game {FPS}" 42 = "Game 42FPS" ∧
    updateTitle "Game {FPS}" (83 / 2) = "Game 42FPS" ∧
    (∀ (w : WinState) (rate : ℚ),
      runLoopTick w rate = [.setTitle (updateTitle w.props.title rate)]) := by
  refine ⟨by decide, ?_, fun w rate => rfl⟩
  have h : goCeil ((83 : ℚ) / 2) = 42 := by
    show -(((-((83 : ℚ) / 2))).floor) = 42
    have hf : ((-((83 : ℚ) / 2))).floor = ⌊(-((83 : ℚ) / 2))⌋ := rfl
    rw [hf]
    norm_num
  unfold updateTitle
  rw [h]
  decide

/-- C7: the swap-interval calls issued by `useProps` — exactly one when the
vsync block fires, with the tri-state value recomputed from the current
extension flags (`-1` adaptive when an adaptive-sync extension is
advertised and vsync is on, `1` standard when on without one, `0`
immediate when off), and none otherwise. -/
theorem c7_vsync_tristate (vm : Option (Int × Int)) (rate : ℚ) (w : WinState)
    (p : Props) (force : Bool) :
    swapCalls (useProps vm rate w p force).2 =
      if force = true ∨ w.last.vsync ≠ p.vsync then
        [if p.vsync then
          (if w.extWGLEXTSwapControlTear ∨ w.extGLXEXTSwapControlTear then -1
           else 1)
         else 0]
      else [] := by
  rw [useProps_calls]
  cases hv : p.visible <;> cases hm : p.minimized <;>
    simp [hv, hm, swapCalls, swapOf, List.filterMap_append,
      apply_ite (List.filterMap swapOf)]

/-- C9: `doInit` is a no-op returning nil when the `glfwInit` flag is
already set, `doExit` is a no-op returning nil when it is clear, a
successful `doInit` sets the flag, and a successful `doExit` clears it. -/
theorem c9_lifecycle_idempotent :
    (∀ env : InitEnv, doInit env true = ⟨true, none, []⟩) ∧
    (∀ env : InitEnv, doExit env false = ⟨false, none, []⟩) ∧
    (∀ env : InitEnv, (doInit env false).err = none →
      (doInit env false).flag = true) ∧
    (∀ env : InitEnv, (doExit env true).err = none →
      (doExit env true).flag = false) := by
  refine ⟨fun env => rfl, fun env => rfl, fun env h => ?_, fun env h => ?_⟩
  · obtain ⟨g, wh, cw, nd, ae, te⟩ := env
    unfold doInit at h ⊢
    cases g <;> cases wh <;> cases cw <;> cases nd <;> simp_all
  · obtain ⟨g, wh, cw, nd, ae, te⟩ := env
    unfold doExit at h ⊢
    cases ae <;> simp_all

/-- C9 witness: with every native operation succeeding, `doInit` from the
uninitialized state sets the flag and `doExit` from the initialized state
clears it. -/
theorem c9_lifecycle_idempotent_witness :
    (doInit ⟨none, none, none, none, none, none⟩ false).flag = true ∧
    (doExit ⟨none, none, none, none, none, none⟩ true).flag = false :=
  ⟨c9_lifecycle_idempotent.2.2.1 ⟨none, none, none, none, none, none⟩ rfl,
   c9_lifecycle_idempotent.2.2.2 ⟨none, none, none, none, none, none⟩ rfl⟩

/-- C10: `Run` with a nil graphics loop panics with
`"window: nil graphics loop function!"` without reaching `doRun` (which
performs all native initialization and window creation); a nil property
set does not fail but is replaced by the freshly constructed defaults. -/
theorem c10_run_nil_checks :
    (∀ p : Option Props,
      Run true p = .panicked "window: nil graphics loop function!") ∧
    Run false none = .ran NewProps ∧
    (∀ q : Props, Run false (some q) = .ran q) := by
  refine ⟨fun p => ?_, rfl, fun q => rfl⟩
  cases p <;> rfl

/-- C1 counterexample: re-running `useProps` with a requested set
identical to `last` and `force = false` still issues a native mutation
call — the unconditional `SetTitle` — so the trace is not empty as the
claim requires. -/
theorem c1_rerun_counterexample :
    (useProps (some (1920, 1080)) (0 : ℚ)
        ⟨NewProps, NewProps, .negInf, .negInf, false, false⟩ NewProps false).2
      = [.setTitle "Azul3D"] ∧
    (useProps (some (1920, 1080)) (0 : ℚ)
        ⟨NewProps, NewProps, .negInf, .negInf, false, false⟩ NewProps false).2
      ≠ [] := by
  constructor
  · decide
  · decide

/-- C1 (amended): `useProps` with `force = false` sets `last` equal to the
requested set on every reconciled field (title and the
not-reconcilable-post-creation flags excluded); apart from the
unconditional title call it issues exactly one native mutation call per
reconciled field whose requested value differs from `last` (for the
cursor position only when neither coordinate is the `-1` sentinel); and a
re-run with a requested set that agrees with `last` on all reconciled
fields issues exactly the one title call. -/
theorem c1_reconciler_minimal_diff (vm : Option (Int × Int)) (rate : ℚ)
    (w : WinState) (p : Props) :
    ((useProps vm rate w p false).1.last =
      { w.last with
          width := p.width, height := p.height, x := p.x, y := p.y,
          cursorX := p.cursorX, cursorY := p.cursorY,
          visible := p.visible, minimized := p.minimized,
          vsync := p.vsync, cursorGrabbed := p.cursorGrabbed }) ∧
    ((useProps vm rate w p false).2 =
      NativeCall.setTitle (updateTitle p.title rate) ::
      ((if p.width ≠ w.last.width ∨ p.height ≠ w.last.height then
          [.setSize p.width p.height] else [])
       ++ (if p.x ≠ w.last.x ∨ p.y ≠ w.last.y then
            [.setPosition (resolvedPos vm p).1 (resolvedPos vm p).2] else [])
       ++ (if p.cursorX ≠ w.last.cursorX ∨ p.cursorY ≠ w.last.cursorY then
            (if p.cursorX ≠ -1 ∧ p.cursorY ≠ -1 then
              [.setCursorPosition p.cursorX p.cursorY] else [])
           else [])
       ++ (if w.last.visible ≠ p.visible then
            [if p.visible then .show else .hide] else [])
       ++ (if w.last.minimized ≠ p.minimized then
            [if p.minimized then .iconify else .restore] else [])
       ++ (if w.last.vsync ≠ p.vsync then
            [.swapInterval
              (if p.vsync then
                (if w.extWGLEXTSwapControlTear ∨ w.extGLXEXTSwapControlTear then -1
                 else 1)
               else 0)]
           else [])
       ++ (if w.last.cursorGrabbed ≠ p.cursorGrabbed then
            [.setInputMode p.cursorGrabbed] else []))) ∧
    (p.width = w.last.width → p.height = w.last.height → p.x = w.last.x →
     p.y = w.last.y → p.cursorX = w.last.cursorX → p.cursorY = w.last.cursorY →
     p.visible = w.last.visible → p.minimized = w.last.minimized →
     p.vsync = w.last.vsync → p.cursorGrabbed = w.last.cursorGrabbed →
     (useProps vm rate w p false).2 = [.setTitle (updateTitle p.title rate)]) := by
  refine ⟨useProps_last vm rate w p false, ?_, ?_⟩
  · rw [useProps_calls]
    simp
  · intro h1 h2 h3 h4 h5 h6 h7 h8 h9 h10
    rw [useProps_calls]
    simp [h1, h2, h3, h4, h5, h6, h7, h8, h9, h10]

/-- C1 witness: the amended idempotence conjunct applied at a concrete
state whose requested set equals `last`: the only native call is the
title update. -/
theorem c1_reconciler_minimal_diff_witness :
    (useProps (some (1920, 1080)) (0 : ℚ)
        ⟨NewProps, NewProps, .negInf, .negInf, false, false⟩ NewProps false).2
      = [.setTitle (updateTitle NewProps.title 0)] :=
  (c1_reconciler_minimal_diff (some (1920, 1080)) 0
      ⟨NewProps, NewProps, .negInf, .negInf, false, false⟩ NewProps).2.2
    rfl rfl rfl rfl rfl rfl rfl rfl rfl rfl

/-- C2: at the claim's own scenario the fan-out half holds — two
subscriptions of one channel with masks `3` and `1` deliver an event of
type `1` (in both masks) twice — but the unsubscribe half hits the
`deleteNotifiers` slice-aliasing bug: `findNotifier` keeps searching the
stale full-length `w.notifiers` view while the loop shrinks the aliased
local `s`, so it re-finds a stale entry and takes `s[idx+1:]` past the
shrunk length — a Go runtime bounds error (`none`); no removal
completes. -/
theorem c2_notify_noEvents_panics :
    ((sendEvent ⟨[⟨3, 1⟩, ⟨1, 1⟩], fun _ => Queue.mk [] 4⟩ 9 1).queues 1).buf
      = [9, 9] ∧
    notify [⟨3, 1⟩, ⟨1, 1⟩] 1 NoEvents = none := by
  constructor
  · decide
  · decide

/-- Publishing to a full queue changes nothing: each step of the
`sendEvent` fold leaves a queue at (or beyond) capacity untouched. -/
theorem sendEvent_full_queue_aux (ch ev m : Nat) (ns : List Notifier) :
    ∀ qs : Nat → Queue, (qs ch).cap ≤ (qs ch).buf.length →
      ns.foldl
        (fun qs nf => fun c =>
          if nf.mask &&& m ≠ 0 ∧ c = nf.ch then trySend (qs c) ev else qs c)
        qs ch = qs ch := by
  induction ns with
  | nil => intro qs h; rfl
  | cons nf rest ih =>
    intro qs h
    have hstep :
        (if nf.mask &&& m ≠ 0 ∧ ch = nf.ch then trySend (qs ch) ev else qs ch)
          = qs ch := by
      split_ifs with hc
      · unfold trySend
        exact if_neg (by omega)
      · rfl
    have h' :
        ((if nf.mask &&& m ≠ 0 ∧ ch = nf.ch then trySend (qs ch) ev
          else qs ch)).cap ≤
        ((if nf.mask &&& m ≠ 0 ∧ ch = nf.ch then trySend (qs ch) ev
          else qs ch)).buf.length := by
      rw [hstep]
      exact h
    rw [List.foldl_cons, ih _ h', hstep]

/-- C3: publishing an event to a subscriber whose queue is at capacity
leaves that queue unchanged (the non-blocking send drops the event), and
publishing never modifies the subscription list. -/
theorem c3_full_queue_drop (s : EventSys) (ch ev m : Nat)
    (h : (s.queues ch).cap ≤ (s.queues ch).buf.length) :
    (sendEvent s ev m).queues ch = s.queues ch ∧
    (sendEvent s ev m).notifiers = s.notifiers :=
  ⟨sendEvent_full_queue_aux ch ev m s.notifiers s.queues h, rfl⟩

/-- C3 witness: a single subscriber with a full one-slot queue; the
matching publish leaves both the queue and the subscription list as they
were. -/
theorem c3_full_queue_drop_witness :
    (sendEvent ⟨[⟨1, 5⟩], fun _ => Queue.mk [7] 1⟩ 9 1).queues 5
      = Queue.mk [7] 1 ∧
    (sendEvent ⟨[⟨1, 5⟩], fun _ => Queue.mk [7] 1⟩ 9 1).notifiers = [⟨1, 5⟩] :=
  c3_full_queue_drop ⟨[⟨1, 5⟩], fun _ => Queue.mk [7] 1⟩ 5 9 1 (by decide)

/-- C4: after a grab toggle to `true` via `useProps` (which resets the
delta baseline to the sentinel), the first cursor callback emits no
CursorMoved event whatever the raw coordinates, and the second emits the
delta second sample minus first sample. -/
theorem c4_grab_first_sample_suppressed (vm : Option (Int × Int)) (rate : ℚ)
    (w : WinState) (p : Props) (x1 y1 x2 y2 : ℚ)
    (hlast : w.last.cursorGrabbed = false) (hreq : p.cursorGrabbed = true) :
    (cursorPosCallback (useProps vm rate w p false).1 x1 y1).2 = none ∧
    (cursorPosCallback
        (cursorPosCallback (useProps vm rate w p false).1 x1 y1).1 x2 y2).2
      = some ⟨x2 - x1, y2 - y1, true⟩ := by
  have hg : (useProps vm rate w p false).1.props.cursorGrabbed = true := by
    rw [useProps_props]
    exact hreq
  have hcond : (false = true ∨ w.last.cursorGrabbed ≠ p.cursorGrabbed) := by
    right
    rw [hlast, hreq]
    exact Bool.false_ne_true
  have hx : (useProps vm rate w p false).1.lastCursorX = Coord.negInf := by
    rw [useProps_lastCursorX, if_pos hcond]
  have hy : (useProps vm rate w p false).1.lastCursorY = Coord.negInf := by
    rw [useProps_lastCursorY, if_pos hcond]
  refine ⟨?_, ?_⟩
  · rw [cursorPosCallback_grabbed _ _ _ hg]
    simp [hx, hy]
  · rw [cursorPosCallback_grabbed _ _ _ hg]
    dsimp only
    rw [cursorPosCallback_grabbed]
    · simp [Coord.toQ]
    · exact hg

/-- C4 witness: a concrete grab toggle followed by raw samples `(10,20)`
then `(11,23)`: the first callback is suppressed and the second reports
the raw delta. -/
theorem c4_grab_first_sample_suppressed_witness :
    (cursorPosCallback (useProps (some (1920, 1080)) (0 : ℚ)
        ⟨NewProps, NewProps, .val 0, .val 0, false, false⟩
        { NewProps with cursorGrabbed := true } false).1 10 20).2 = none ∧
    (cursorPosCallback
        (cursorPosCallback (useProps (some (1920, 1080)) (0 : ℚ)
          ⟨NewProps, NewProps, .val 0, .val 0, false, false⟩
          { NewProps with cursorGrabbed := true } false).1 10 20).1 11 23).2
      = some ⟨(11 : ℚ) - 10, (23 : ℚ) - 20, true⟩ :=
  c4_grab_first_sample_suppressed (some (1920, 1080)) 0
    ⟨NewProps, NewProps, .val 0, .val 0, false, false⟩
    { NewProps with cursorGrabbed := true } 10 20 11 23 rfl rfl

/-- C8 counterexample: not every source site that mutates the
(`props`, `last`) pair holds the write lock — the iconify translator
callback mutates the pair under `RLock`. -/
theorem c8_translator_lock_counterexample :
    ¬ (∀ a ∈ propsPairAccesses, a.writesPair = true → a.lock = LockKind.write) := by
  decide

/-- C8 (amended): the Reconciler (`useProps`) takes the write lock; the
external `Props()` accessor takes the read lock and does not mutate the
pair; every Translator callback site takes the read lock — also while
mutating the pair (the callbacks run on the native thread and rely on the
property set values carrying their own synchronization). -/
theorem c8_lock_discipline :
    ∀ a ∈ propsPairAccesses,
      (a.site = "useProps" → a.lock = LockKind.write) ∧
      (a.site ≠ "useProps" → a.lock = LockKind.read) ∧
      (a.writesPair = false → a.site = "Props") := by
  decide

/-- C8 witness: the amended discipline at the iconify callback site. -/
theorem c8_lock_discipline_witness :
    ((("iconifyCallback" : String) = "useProps" →
        LockKind.read = LockKind.write) ∧
     (("iconifyCallback" : String) ≠ "useProps" →
        LockKind.read = LockKind.read) ∧
     ((true : Bool) = false → ("iconifyCallback" : String) = "Props")) :=
  c8_lock_discipline ⟨"iconifyCallback", LockKind.read, true⟩ (by decide)

end Gfx
